import Mathlib

/-!
Shallow embedding of `src/server.py`, an MCP weather server that fetches the
KMA (Korean Meteorological Administration) ultra-short-term nowcast
(`getUltraSrtNcst`) for one of eight metropolitan regions and normalizes the
raw code-keyed response into grouped, human-readable entries.

Embedding conventions:
* Python strings are Lean `String`s; `str.strip()` is modelled by `pyStrip`
  (dropping `Char.isWhitespace` characters from both ends; Python's strip set
  is slightly larger than Lean's four ASCII whitespace characters, which does
  not matter for any value in this development).
* Python `float` values are modelled as exact rationals (`PFloat`, a rational
  plus the non-finite values `inf`/`-inf`/`nan`).  Binary rounding and
  overflow-to-infinity of CPython floats are not modelled; every float literal
  appearing in the source (`11.25`, `22.5`, `8.0`) and in the claims is exactly
  representable, so the rational semantics agrees with CPython on everything
  proved here.  `float(s)` string parsing is modelled by `parsePyFloat`, which
  implements the sign/digits/fraction/exponent and `inf`/`nan` forms of the
  CPython grammar (digit-separator underscores are not modelled).
* The wall clock (`datetime.now(tz=KST)`) is an explicit `SimpleDT` argument;
  Asia/Seoul has a fixed UTC offset, so `timedelta` arithmetic on aware
  datetimes coincides with plain calendar arithmetic, which `subOneHour`
  implements on the proleptic Gregorian calendar exactly as `timedelta(hours=1)`
  subtraction does.
* The network is abstracted by a function `upstream : String → FetchOutcome`
  giving, for each `base_time` ("HH00") of the fixed `base_date`/grid of one
  invocation, either the parsed JSON envelope or the exception raised by
  `fetch_ultra_srt_ncst` (HTTPStatusError / RequestError / other).  The
  service key, page size and URL only parametrize the request itself and are
  absorbed into this function.
* Python dicts keep insertion order; result dicts of `normalize_observations`
  are association lists with `dictInsert` overwriting in place (as Python
  assignment to an existing key does) and appending otherwise.
-/

namespace KMAWeather

/-- Python `str.strip()` whitespace test (space, tab, CR, LF). -/
def isPySpace (c : Char) : Bool := c.isWhitespace

/-- Strip `isPySpace` characters from both ends of a character list. -/
def stripChars (l : List Char) : List Char :=
  ((l.dropWhile isPySpace).reverse.dropWhile isPySpace).reverse

/-- Model of Python `str.strip()`. -/
def pyStrip (s : String) : String := ⟨stripChars s.data⟩

/-- Administrative suffixes stripped by `normalize_city`, in source order
(longest / most specific first). -/
def CITY_SUFFIXES : List String := ["특별자치시", "특별시", "광역시", "시"]

/-- Python `s.endswith(suf)`: both are Unicode code-point sequences, so this
is the list suffix test on the character data. -/
def pyEndsWith (s suf : String) : Bool := suf.data.isSuffixOf s.data

/-- `normalize_city` from the source: strip the input, then run once over the
suffix tuple, removing each suffix the current value ends with, then strip
again.  Empty input short-circuits to `""`. -/
def normalize_city (city : String) : String :=
  if city = "" then ""
  else
    pyStrip (CITY_SUFFIXES.foldl
      (fun s suf => if pyEndsWith s suf then s.dropRight suf.length else s)
      (pyStrip city))

/-- Modelled from the spec: the Input Normalizer "strips, in priority order,
the longest matching administrative suffix" — i.e. it removes exactly one
suffix, the first (longest) one that matches, and nothing more.  This is the
spec-side definition used to compare against the source's `normalize_city`. -/
def normalize_city_spec (city : String) : String :=
  if city = "" then ""
  else
    let s := pyStrip city
    pyStrip (match CITY_SUFFIXES.find? (fun suf => pyEndsWith s suf) with
      | some suf => s.dropRight suf.length
      | none => s)

/-- `CITY_TO_GRID` dict from the source, as an association list in source
order: region key ↦ representative grid point (nx, ny). -/
def CITY_TO_GRID_LIST : List (String × Nat × Nat) :=
  [("서울", 60, 127), ("부산", 98, 76), ("대구", 89, 90), ("인천", 55, 124),
   ("광주", 58, 74), ("대전", 67, 100), ("울산", 102, 84), ("세종", 66, 103)]

/-- Dict lookup `CITY_TO_GRID.get(city)`. -/
def CITY_TO_GRID (city : String) : Option (Nat × Nat) :=
  (CITY_TO_GRID_LIST.find? (fun p => p.1 == city)).map (fun p => p.2)

/-- `sorted(CITY_TO_GRID.keys())` — Python sorts strings by code point, which
for these eight keys gives the list below (verified by
`supported_cities_sorted` and `supported_cities_perm`). -/
def supported_cities : List String :=
  ["광주", "대구", "대전", "부산", "서울", "세종", "울산", "인천"]

/-- `PTY_MAP_ULTRA` precipitation-type code table, in source order. -/
def PTY_MAP_ULTRA : List (Int × String) :=
  [(0, "없음"), (1, "비"), (2, "비/눈"), (3, "눈"), (4, "소나기"),
   (5, "빗방울"), (6, "빗방울/눈날림"), (7, "눈날림")]

/-- Dict lookup `PTY_MAP_ULTRA.get(n)`. -/
def ptyDescription (n : Int) : Option String :=
  (PTY_MAP_ULTRA.find? (fun p => p.1 == n)).map (fun p => p.2)

/-- Declared numeric kind of a category (`"cast": float` / `"cast": int`). -/
inductive CastKind
  | int
  | float
  deriving DecidableEq

/-- One entry of `CATEGORY_META`: Korean label, unit, display group and cast. -/
structure CatMeta where
  ko : String
  unit : String
  group : String
  cast : CastKind
  deriving DecidableEq

/-- `CATEGORY_META` dict from the source, in source order. -/
def CATEGORY_META_LIST : List (String × CatMeta) :=
  [("T1H", ⟨"기온", "℃", "기온", .float⟩),
   ("REH", ⟨"습도", "%", "습도", .int⟩),
   ("RN1", ⟨"1시간 강수량", "mm", "강수", .float⟩),
   ("PTY", ⟨"강수형태", "코드", "강수", .int⟩),
   ("VEC", ⟨"풍향", "deg", "바람", .int⟩),
   ("WSD", ⟨"풍속", "m/s", "바람", .float⟩),
   ("UUU", ⟨"동서바람성분", "m/s", "바람", .float⟩),
   ("VVV", ⟨"남북바람성분", "m/s", "바람", .float⟩)]

/-- Dict lookup `CATEGORY_META.get(code)`. -/
def CATEGORY_META (code : String) : Option CatMeta :=
  (CATEGORY_META_LIST.find? (fun p => p.1 == code)).map (fun p => p.2)

/-- `WIND_DIR_16_KO`: the sixteen compass labels, north first, clockwise. -/
def WIND_DIR_16_KO : List String :=
  ["북", "북북동", "북동", "동북동", "동", "동남동", "남동", "남남동",
   "남", "남남서", "남서", "서남서", "서", "서북서", "북서", "북북서"]

/-- Python's `%` on reals for a positive modulus: floored remainder
`x - y * floor (x / y)`, which is what CPython computes for both `int % int`
and `float % float`. -/
def pyMod (x y : ℚ) : ℚ := x - y * (⌊x / y⌋ : ℚ)

/-- Body of `wind_deg_to_16dir_ko` for a present degree value:
`int(((deg % 360) + 11.25) // 22.5) % 16` indexed into `WIND_DIR_16_KO`.
The Python annotation says `Optional[int]`, but CPython happily evaluates the
same arithmetic for any real argument; the embedding therefore takes a
rational degree.  The `//` floor-division result is non-negative here, so the
final `int(...)` truncation is the identity and `% 16` is an ordinary
non-negative remainder. -/
def windDeg16 (deg : ℚ) : String :=
  WIND_DIR_16_KO.getD (Int.toNat (Int.emod ⌊(pyMod deg 360 + 11.25) / 22.5⌋ 16)) ""

/-- `wind_deg_to_16dir_ko` including the `None` short-circuit. -/
def wind_deg_to_16dir_ko : Option ℚ → Option String
  | Option.none => Option.none
  | some d => some (windDeg16 d)

/-- Result of Python `float(s)` string conversion: a finite rational or one of
the non-finite floats. -/
inductive PFloat
  | finite (q : ℚ)
  | inf
  | neginf
  | nan
  deriving DecidableEq

/-- Digit list to natural number, most significant first. -/
def digitsToNat (l : List Char) : Nat :=
  l.foldl (fun a c => a * 10 + (c.toNat - 48)) 0

/-- Build the rational value `±(ip . fp) × 10^e` of a decimal literal: the
mantissa digits form an integer, the fraction length and a negative exponent
contribute powers of ten to the denominator, a non-negative exponent to the
numerator.  `Rat.normalize` produces the value in lowest terms (Python floats
compare by value, so the exact rational is the right model). -/
def decToRat (neg : Bool) (ip fp : List Char) (e : Int) : ℚ :=
  let m : Int := (digitsToNat (ip ++ fp) : Int)
  let m : Int := if neg then -m else m
  if 0 ≤ e then
    Rat.normalize (m * (10 : Int) ^ e.toNat) ((10 : Nat) ^ fp.length)
      (Nat.pos_iff_ne_zero.mp (Nat.pos_pow_of_pos _ (by decide)))
  else
    Rat.normalize m ((10 : Nat) ^ (fp.length + (-e).toNat))
      (Nat.pos_iff_ne_zero.mp (Nat.pos_pow_of_pos _ (by decide)))

/-- Parse the optional exponent part (after mantissa digits) of a float
literal; the remainder must be consumed entirely. -/
def parseExpPart (neg : Bool) (ip fp : List Char) : List Char → Option PFloat
  | [] => some (.finite (decToRat neg ip fp 0))
  | c :: rest =>
    if c = 'e' ∨ c = 'E' then
      let signAndRest : Bool × List Char :=
        match rest with
        | '+' :: t => (false, t)
        | '-' :: t => (true, t)
        | t => (false, t)
      let ed := signAndRest.2.takeWhile Char.isDigit
      let r := signAndRest.2.dropWhile Char.isDigit
      if ed.isEmpty ∨ ¬ r.isEmpty then Option.none
      else
        some (.finite (decToRat neg ip fp
          (if signAndRest.1 then -(digitsToNat ed : Int) else (digitsToNat ed : Int))))
    else Option.none

/-- Parse the part of a float literal after an optional sign: `inf`,
`infinity`, `nan` (case-insensitive) or `digits [. digits] [exponent]`. -/
def parseAfterSign (neg : Bool) (cs : List Char) : Option PFloat :=
  let low := cs.map Char.toLower
  if low = "inf".data ∨ low = "infinity".data then
    some (if neg then .neginf else .inf)
  else if low = "nan".data then some .nan
  else
    let ip := cs.takeWhile Char.isDigit
    let r1 := cs.dropWhile Char.isDigit
    match r1 with
    | '.' :: r2 =>
      let fp := r2.takeWhile Char.isDigit
      let r3 := r2.dropWhile Char.isDigit
      if ip.isEmpty ∧ fp.isEmpty then Option.none else parseExpPart neg ip fp r3
    | _ => if ip.isEmpty then Option.none else parseExpPart neg ip [] r1

/-- Model of CPython `float(s)` on an already-stripped string: `None` when the
string is not a valid float literal (this then raises `ValueError`, which
`safe_cast` absorbs). -/
def parsePyFloat (s : String) : Option PFloat :=
  match s.data with
  | [] => Option.none
  | '+' :: t => parseAfterSign false t
  | '-' :: t => parseAfterSign true t
  | cs => parseAfterSign false cs

/-- Python `int(x)` on a finite float: truncation toward zero.  `Rat.num` and
`Rat.den` are coprime with positive denominator, and `Int.tdiv` rounds toward
zero, so this is exactly CPython's truncation. -/
def ratTrunc (q : ℚ) : Int := Int.tdiv q.num (q.den : Int)

/-- Raw JSON scalar as it reaches `safe_cast` / `normalize_observations`:
either JSON `null` (Python `None`) or a string. -/
inductive Raw
  | none
  | str (s : String)
  deriving DecidableEq

/-- Value stored in a normalized entry: `None`, an int, a float, or the
original string when casting failed. -/
inductive Value
  | none
  | int (n : Int)
  | float (f : PFloat)
  | str (s : String)
  deriving DecidableEq

/-- Identity injection of a raw value (used for unknown categories, whose
`obsrValue` is kept as-is). -/
def rawToValue : Raw → Value
  | .none => .none
  | .str s => .str s

/-- `safe_cast(meta_cast, raw)` from the source:
`None` stays `None`; an empty/whitespace-only string becomes `None`;
`int` casting is `int(float(s))` (truncating, and failing on `inf`/`nan` with
`OverflowError`/`ValueError`); `float` casting is `float(s)`; any conversion
failure returns the original raw value unchanged. -/
def safe_cast (kind : CastKind) (raw : Raw) : Value :=
  match raw with
  | .none => .none
  | .str s0 =>
    let s := pyStrip s0
    if s = "" then .none
    else
      match kind with
      | .int =>
        match parsePyFloat s with
        | some (.finite q) => .int (ratTrunc q)
        | some _ => .str s0
        | Option.none => .str s0
      | .float =>
        match parsePyFloat s with
        | some pf => .float pf
        | Option.none => .str s0

/-- One upstream observation record as consumed by `normalize_observations`:
`it.get("category", "")` (absent modelled as `Option.none`) and
`it.get("obsrValue")`.  The coordinate/time echo fields of the real payload
are never read by the source and are omitted. -/
structure RawItem where
  category : Option String
  obsrValue : Raw
  deriving DecidableEq

/-- `str(it.get("category", "")).strip()`. -/
def codeOf (it : RawItem) : String := pyStrip (it.category.getD "")

/-- One normalized entry (`{"코드": ..., "값": ..., "단위": ...}` plus the
optional `"설명"` (PTY) and `"16방위"` (VEC) keys, absent = `Option.none`). -/
structure Entry where
  code : String
  value : Value
  unit : Option String
  desc : Option String
  dir16 : Option String
  deriving DecidableEq

/-- The five fixed group dicts of `normalize_observations`, keyed
"기온" / "습도" / "강수" / "바람" / "기타", each an insertion-ordered dict. -/
structure Grouped where
  temp : List (String × Entry)
  humid : List (String × Entry)
  rain : List (String × Entry)
  wind : List (String × Entry)
  etc : List (String × Entry)
  deriving DecidableEq

/-- Keys present in the initial `grouped` dict. -/
def groupKeys : List String := ["기온", "습도", "강수", "바람", "기타"]

/-- The initial `grouped` value: five empty dicts. -/
def emptyGrouped : Grouped := ⟨[], [], [], [], []⟩

/-- `grouped[name]` for the five fixed group keys. -/
def getGroup (g : Grouped) (name : String) : List (String × Entry) :=
  if name = "기온" then g.temp
  else if name = "습도" then g.humid
  else if name = "강수" then g.rain
  else if name = "바람" then g.wind
  else g.etc

/-- `grouped[name] = d` for the five fixed group keys. -/
def setGroup (g : Grouped) (name : String) (d : List (String × Entry)) : Grouped :=
  if name = "기온" then { g with temp := d }
  else if name = "습도" then { g with humid := d }
  else if name = "강수" then { g with rain := d }
  else if name = "바람" then { g with wind := d }
  else { g with etc := d }

/-- Python `key in dict`. -/
def dictContains (d : List (String × Entry)) (k : String) : Bool :=
  d.any (fun kv => kv.1 == k)

/-- Python `dict[k] = v`: overwrite in place if the key exists (keeping its
position), append otherwise. -/
def dictInsert : List (String × Entry) → String → Entry → List (String × Entry)
  | [], k, v => [(k, v)]
  | kv :: rest, k, v =>
    if kv.1 = k then (k, v) :: rest else kv :: dictInsert rest k v

/-- Per-item part of the `normalize_observations` loop body: resolve the
category metadata (label, unit, group, cast), cast the value, and attach the
PTY description / VEC compass label exactly as the source does.  Returns
`(group, name_ko, entry)`; the caller handles grouping and key collisions. -/
def itemEntry (it : RawItem) : String × String × Entry :=
  let code := codeOf it
  let raw_val := it.obsrValue
  let meta? := CATEGORY_META code
  let name_ko :=
    match meta? with
    | some meta => meta.ko
    | Option.none => if code = "" then "UNKNOWN" else code
  let unit : Option String :=
    match meta? with
    | some meta => some meta.unit
    | Option.none => Option.none
  let group :=
    match meta? with
    | some meta => meta.group
    | Option.none => "기타"
  let val :=
    match meta? with
    | some meta => safe_cast meta.cast raw_val
    | Option.none => rawToValue raw_val
  let desc : Option String :=
    if code = "PTY" then
      let pty_int := match val with | .int n => Value.int n | _ => safe_cast .int raw_val
      match pty_int with
      | .int n => some ((ptyDescription n).getD ("알 수 없음(" ++ toString n ++ ")"))
      | _ => some "알 수 없음"
    else Option.none
  let dir16 : Option String :=
    if code = "VEC" then
      let vec_int := match val with | .int n => Value.int n | _ => safe_cast .int raw_val
      match vec_int with
      | .int n => wind_deg_to_16dir_ko (some (n : ℚ))
      | _ => Option.none
    else Option.none
  (group, name_ko, ⟨code, val, unit, desc, dir16⟩)

/-- One iteration of the `normalize_observations` loop: compute the entry,
redirect unknown groups to "기타", disambiguate a colliding display key by
suffixing the raw code in parentheses, and insert. -/
def normStep (g : Grouped) (it : RawItem) : Grouped :=
  let ge := itemEntry it
  let group := if groupKeys.contains ge.1 then ge.1 else "기타"
  let d := getGroup g group
  let key :=
    if dictContains d ge.2.1 then ge.2.1 ++ "(" ++ ge.2.2.code ++ ")" else ge.2.1
  setGroup g group (dictInsert d key ge.2.2)

/-- `normalize_observations(items)` from the source. -/
def normalize_observations (items : List RawItem) : Grouped :=
  items.foldl normStep emptyGrouped

/-- Local (KST) wall-clock instant, to calendar precision used by the source
(seconds and microseconds are zeroed by the truncation and never read). -/
structure SimpleDT where
  year : Nat
  month : Nat
  day : Nat
  hour : Nat
  minute : Nat
  deriving DecidableEq

/-- Gregorian leap-year test. -/
def isLeap (y : Nat) : Bool := (y % 4 == 0 && y % 100 != 0) || y % 400 == 0

/-- Length of a Gregorian month. -/
def daysInMonth (y m : Nat) : Nat :=
  if m = 2 then (if isLeap y then 29 else 28)
  else if m = 4 ∨ m = 6 ∨ m = 9 ∨ m = 11 then 30 else 31

/-- Previous calendar day on the proleptic Gregorian calendar. -/
def prevDay (y m d : Nat) : Nat × Nat × Nat :=
  if 2 ≤ d then (y, m, d - 1)
  else if 2 ≤ m then (y, m - 1, daysInMonth y (m - 1))
  else (y - 1, 12, 31)

/-- `now.replace(minute=0, second=0, microsecond=0)`. -/
def hourFloor (t : SimpleDT) : SimpleDT := { t with minute := 0 }

/-- `cand_dt - timedelta(hours=1)` for a KST-aware datetime: Asia/Seoul has a
fixed offset, so this is plain calendar arithmetic (day rolls back across
midnight). -/
def subOneHour (t : SimpleDT) : SimpleDT :=
  if 1 ≤ t.hour then { t with hour := t.hour - 1 }
  else
    let p := prevDay t.year t.month t.day
    { year := p.1, month := p.2.1, day := p.2.2, hour := 23, minute := t.minute }

/-- Zero-padded two-digit decimal rendering (`%02d` / `%m` / `%d` / `%H` for
in-range values, which every valid month, day and hour is). -/
def pad2Chars (n : Nat) : List Char :=
  [Nat.digitChar (n / 10 % 10), Nat.digitChar (n % 10)]

/-- Zero-padded four-digit decimal rendering (`%Y` for years up to 9999). -/
def pad4Chars (n : Nat) : List Char :=
  [Nat.digitChar (n / 1000 % 10), Nat.digitChar (n / 100 % 10),
   Nat.digitChar (n / 10 % 10), Nat.digitChar (n % 10)]

/-- `as_base_date(d) = d.strftime("%Y%m%d")`. -/
def as_base_date (t : SimpleDT) : String :=
  ⟨pad4Chars t.year ++ pad2Chars t.month ++ pad2Chars t.day⟩

/-- `as_base_time_hour(d) = f"{d.hour:02d}00"`. -/
def as_base_time_hour (t : SimpleDT) : String :=
  ⟨pad2Chars t.hour ++ ['0', '0']⟩

/-- The two candidate query windows built by `get_now_weather`:
`hour_floor` and `hour_floor - timedelta(hours=1)`, in that order. -/
def candidate_list (now : SimpleDT) : List SimpleDT :=
  [hourFloor now, subOneHour (hourFloor now)]

/-- Candidates that survive the same-calendar-date guard
(`as_base_date(cand_dt) == base_date`), i.e. the windows that are actually
attempted / listed as `candidate_times`. -/
def eligible_candidates (now : SimpleDT) : List SimpleDT :=
  (candidate_list now).filter (fun c => as_base_date c == as_base_date now)

/-- Sanity bounds of a wall-clock reading: what `datetime.now(tz=KST)`
always satisfies (year 1–9999, valid month/day, hour 0–23, minute 0–59). -/
def ValidDT (t : SimpleDT) : Prop :=
  1 ≤ t.year ∧ t.year ≤ 9999 ∧ 1 ≤ t.month ∧ t.month ≤ 12 ∧
  1 ≤ t.day ∧ t.day ≤ daysInMonth t.year t.month ∧ t.hour ≤ 23 ∧ t.minute ≤ 59

instance (t : SimpleDT) : Decidable (ValidDT t) := by
  unfold ValidDT
  infer_instance

/-- Parsed `response.header` of the upstream JSON envelope; a missing
`resultCode` / `resultMsg` key is `Option.none` (the source defaults it to
`""`). -/
structure ApiHeader where
  resultCode : Option String
  resultMsg : Option String
  deriving DecidableEq

/-- The three payload shapes of `response.body.items.item` tolerated by
`extract_items`: absent (or structurally malformed), a single object, or a
list. -/
inductive ItemField
  | absent
  | single (it : RawItem)
  | list (its : List RawItem)
  deriving DecidableEq

/-- Parsed upstream JSON envelope, restricted to the fields the source
reads. -/
structure ApiJson where
  header : ApiHeader
  items : ItemField
  deriving DecidableEq

/-- `extract_items(api_json)`: always a list, degrading missing or singleton
payloads as the source does. -/
def extract_items (j : ApiJson) : List RawItem :=
  match j.items with
  | .absent => []
  | .single it => [it]
  | .list l => l

/-- Outcome of one `fetch_ultra_srt_ncst` call as observed by the `try` block
of `get_now_weather`: a parsed JSON envelope, or one of the three exception
classes (carrying `str(e)`). -/
inductive FetchOutcome
  | ok (resp : ApiJson)
  | httpStatusError (e : String)
  | requestError (e : String)
  | exn (e : String)
  deriving DecidableEq

/-- One record of the `attempts` audit trail. -/
structure Attempt where
  base_date : String
  base_time : String
  resultCode : String
  resultMsg : String
  count : Nat
  deriving DecidableEq

/-- The four shapes of dict returned by `get_now_weather`: missing service
key; unsupported region (with input, normalized form and supported keys);
success (region, grid, effective window, grouped observations, attempt
trail); exhausted failure (last error, region, grid, base date, eligible
candidate times, attempt trail). -/
inductive WeatherResult
  | envError (error : String)
  | unsupported (error input normalized : String) (supported : List String)
  | success (region : String) (nx ny : Nat) (base_date base_time : String)
      (obs : Grouped) (attempts : List Attempt)
  | exhausted (error region : String) (nx ny : Nat) (base_date : String)
      (candidate_times : List String) (attempts : List Attempt)
  deriving DecidableEq

/-- The `last_error` message for a parsed-but-empty (or non-"00") response. -/
def emptyDataMsg (rc : String) (count : Nat) : String :=
  "정상 응답이지만 데이터가 비어있습니다(resultCode=" ++ rc ++ ", count=" ++ toString count ++ ")"

/-- Trimmed result code of a parsed envelope
(`str(header.get("resultCode", "")).strip()`). -/
def respCode (resp : ApiJson) : String := pyStrip (resp.header.resultCode.getD "")

/-- Trimmed result message of a parsed envelope. -/
def respMsg (resp : ApiJson) : String := pyStrip (resp.header.resultMsg.getD "")

/-- The attempt record appended for a parsed response. -/
def mkAttempt (bd bt : String) (resp : ApiJson) : Attempt :=
  ⟨bd, bt, respCode resp, respMsg resp, (extract_items resp).length⟩

/-- Acceptance test of the orchestrator:
`result_code == "00" and items` (non-empty). -/
def acceptedResp (resp : ApiJson) : Prop :=
  respCode resp = "00" ∧ extract_items resp ≠ []

instance (resp : ApiJson) : Decidable (acceptedResp resp) := by
  unfold acceptedResp
  infer_instance

/-- The `for cand_dt in candidates` loop of `get_now_weather`.  The network is
the function `u` from `base_time` to outcome (`base_date`, grid and key are
fixed within one invocation).  `Sum.inl` is the early `return` of a success
dict; `Sum.inr` carries the accumulated attempts and last error after falling
off the loop. -/
def runWindows (u : String → FetchOutcome) (bd cn : String) (nx ny : Nat) :
    List SimpleDT → List Attempt → Option String →
    Sum WeatherResult (List Attempt × Option String)
  | [], atts, le => .inr (atts, le)
  | c :: rest, atts, le =>
    if as_base_date c ≠ bd then runWindows u bd cn nx ny rest atts le
    else
      let bt := as_base_time_hour c
      match u bt with
      | .ok resp =>
        let atts' := atts ++ [mkAttempt bd bt resp]
        if acceptedResp resp then
          .inl (.success cn nx ny bd bt (normalize_observations (extract_items resp)) atts')
        else
          runWindows u bd cn nx ny rest atts'
            (some (emptyDataMsg (respCode resp) (extract_items resp).length))
      | .httpStatusError e =>
        runWindows u bd cn nx ny rest atts (some ("HTTPStatusError: " ++ e))
      | .requestError e =>
        runWindows u bd cn nx ny rest atts (some ("RequestError: " ++ e))
      | .exn e =>
        runWindows u bd cn nx ny rest atts (some ("Exception: " ++ e))

/-- `get_now_weather(city)` with the ambient effects made explicit:
`env_key` is `os.getenv("KMA_SERVICE_KEY")`, `now` is `datetime.now(tz=KST)`,
and `upstream` is the network's response per queried `base_time`. -/
def get_now_weather (env_key : Option String) (city : String) (now : SimpleDT)
    (upstream : String → FetchOutcome) : WeatherResult :=
  if pyStrip (env_key.getD "") = "" then
    .envError "KMA_SERVICE_KEY 환경변수가 비어 있습니다."
  else
    match CITY_TO_GRID (normalize_city city) with
    | Option.none =>
      .unsupported "지원하지 않는 지역입니다." city (normalize_city city) supported_cities
    | some (nx, ny) =>
      match runWindows upstream (as_base_date now) (normalize_city city) nx ny
          (candidate_list now) [] Option.none with
      | .inl r => r
      | .inr (atts, le) =>
        .exhausted (le.getD "알 수 없는 오류") (normalize_city city) nx ny (as_base_date now)
          (((candidate_list now).filter
            (fun c => as_base_date c == as_base_date now)).map as_base_time_hour)
          atts

/-- Concrete upstream used by witnesses: the "1300" window answers success
code "00" with one item, every other window success code "00" with two items
(the first-success-wins scenario of the spec). -/
def upstreamFixtureA : String → FetchOutcome := fun bt =>
  if bt = "1300" then
    .ok ⟨⟨some "00", some "NORMAL_SERVICE"⟩, .list [⟨some "REH", .str "50"⟩]⟩
  else
    .ok ⟨⟨some "00", some "NORMAL_SERVICE"⟩,
      .list [⟨some "REH", .str "60"⟩, ⟨some "T1H", .str "1"⟩]⟩

/-- Concrete upstream used by witnesses: every window answers a parsed
NO_DATA envelope with an empty item list. -/
def upstreamFixtureB : String → FetchOutcome := fun _ =>
  .ok ⟨⟨some "03", some "NO_DATA"⟩, .absent⟩

/-! ### Helper lemmas -/

theorem dropWhile_dropWhile (p : Char → Bool) (l : List Char) :
    (l.dropWhile p).dropWhile p = l.dropWhile p := by
  induction l with
  | nil => rfl
  | cons a t ih =>
    by_cases h : p a
    · simpa [List.dropWhile_cons, h] using ih
    · simp [List.dropWhile_cons, h]

theorem dropWhile_suffix_decomp (p : Char → Bool) (l : List Char) :
    ∃ u, l = u ++ l.dropWhile p := by
  induction l with
  | nil => exact ⟨[], rfl⟩
  | cons a t ih =>
    by_cases h : p a
    · obtain ⟨u, hu⟩ := ih
      exact ⟨a :: u, by simpa [List.dropWhile_cons, h] using congrArg (a :: ·) hu⟩
    · exact ⟨[], by simp [List.dropWhile_cons, h]⟩

theorem dropWhile_of_back_trimmed (p : Char → Bool) (l : List Char)
    (hl : l.dropWhile p = l) :
    ((l.reverse.dropWhile p).reverse).dropWhile p = (l.reverse.dropWhile p).reverse := by
  obtain ⟨u, hu⟩ := dropWhile_suffix_decomp p l.reverse
  have hl2 : l = (l.reverse.dropWhile p).reverse ++ u.reverse := by
    have h1 := congrArg List.reverse hu
    simpa [List.reverse_append] using h1
  cases ht : (l.reverse.dropWhile p).reverse with
  | nil => simp
  | cons a t' =>
    have hl3 : l = a :: (t' ++ u.reverse) := by
      rw [hl2, ht]; simp
    have hpa : p a = false := by
      by_contra hc
      have hpa' : p a = true := by
        cases hpab : p a
        · exact absurd hpab hc
        · rfl
      have h1 : l.dropWhile p = (t' ++ u.reverse).dropWhile p := by
        rw [hl3]; simp [List.dropWhile_cons, hpa']
      have h2 := congrArg List.length (hl.symm.trans h1)
      have h3 := (List.dropWhile_sublist (l := t' ++ u.reverse) p).length_le
      rw [hl3] at h2
      simp only [List.length_cons, List.length_append] at h2 h3
      omega
    simp [List.dropWhile_cons, hpa]

theorem stripChars_idem (l : List Char) : stripChars (stripChars l) = stripChars l := by
  unfold stripChars
  have hfront : (((l.dropWhile isPySpace).reverse.dropWhile isPySpace).reverse).dropWhile
      isPySpace = ((l.dropWhile isPySpace).reverse.dropWhile isPySpace).reverse :=
    dropWhile_of_back_trimmed isPySpace (l.dropWhile isPySpace)
      (dropWhile_dropWhile isPySpace l)
  rw [hfront, List.reverse_reverse, dropWhile_dropWhile]

theorem pyStrip_idem (s : String) : pyStrip (pyStrip s) = pyStrip s := by
  show String.mk (stripChars (stripChars s.data)) = String.mk (stripChars s.data)
  rw [stripChars_idem]

/-- The `supported_cities` list holds exactly the `CITY_TO_GRID` keys. -/
theorem supported_cities_perm :
    supported_cities.Perm (CITY_TO_GRID_LIST.map (fun p => p.1)) := by
  decide

/-- The `supported_cities` list is strictly increasing in code-point order,
i.e. it is `sorted(CITY_TO_GRID.keys())` as Python computes it. -/
theorem supported_cities_sorted :
    "광주".data < "대구".data ∧ "대구".data < "대전".data ∧ "대전".data < "부산".data ∧
    "부산".data < "서울".data ∧ "서울".data < "세종".data ∧ "세종".data < "울산".data ∧
    "울산".data < "인천".data := by
  decide

/-! ### C7 — input normalization -/

/-- C7 (counterexample): the claim says `normalize_city` strips *the longest
matching administrative suffix*.  On "부산광역시특별시" the longest matching
suffix is "특별시" (the longer "특별자치시" does not match), so that reading
yields "부산광역시" — `normalize_city_spec` computes exactly this — but the
source's single pass over the suffix tuple goes on to strip the later
"광역시" entry from the intermediate result and returns "부산". -/
theorem C7_counterexample :
    normalize_city "부산광역시특별시" = "부산" ∧
    normalize_city_spec "부산광역시특별시" = "부산광역시" ∧
    pyEndsWith "부산광역시특별시" "특별시" = true ∧
    pyEndsWith "부산광역시특별시" "특별자치시" = false ∧
    normalize_city "부산광역시특별시" ≠ normalize_city_spec "부산광역시특별시" := by
  decide

/-- C7 (amended): `normalize_city` is total and pure; it makes one pass over
the fixed suffix list in priority order (longest first), stripping each
suffix the running value ends with — so "서울특별시", "서울시", "서울" all
normalize to "서울", "세종특별자치시" is reduced by the five-character suffix
rather than by "시" alone, and inputs stacking several suffixes may have more
than one stripped.  Empty input and input matching no suffix are returned
unchanged after trimming, and no membership check against the supported-region
set is performed ("파리" normalizes to itself although it is unsupported). -/
theorem C7_normalize_city :
    normalize_city "서울특별시" = "서울" ∧
    normalize_city "서울시" = "서울" ∧
    normalize_city "서울" = "서울" ∧
    normalize_city "세종특별자치시" = "세종" ∧
    normalize_city "" = "" ∧
    normalize_city " 파리 " = "파리" ∧
    CITY_TO_GRID "파리" = Option.none ∧
    (∀ s : String, (∀ suf ∈ CITY_SUFFIXES, pyEndsWith (pyStrip s) suf = false) →
      normalize_city s = pyStrip s) := by
  refine ⟨by decide, by decide, by decide, by decide, by decide, by decide, by decide, ?_⟩
  intro s h
  unfold normalize_city
  by_cases hs : s = ""
  · rw [if_pos hs, hs]
    rfl
  · rw [if_neg hs]
    have h1 := h "특별자치시" (by decide)
    have h2 := h "특별시" (by decide)
    have h3 := h "광역시" (by decide)
    have h4 := h "시" (by decide)
    simp only [CITY_SUFFIXES, List.foldl, h1, h2, h3, h4, Bool.false_eq_true, if_false]
    exact pyStrip_idem s

/-- C7 witness: the general unmatched-input clause applied at "abc". -/
theorem C7_witness : normalize_city "abc" = pyStrip "abc" :=
  C7_normalize_city.2.2.2.2.2.2.2 "abc" (by decide)

/-! ### Date rendering and the time-window planner (C1) -/

theorem digitChar_injOn : ∀ a : Fin 10, ∀ b : Fin 10,
    Nat.digitChar a.val = Nat.digitChar b.val → a = b := by
  decide

theorem digitChar_inj {a b : Nat} (ha : a < 10) (hb : b < 10)
    (h : Nat.digitChar a = Nat.digitChar b) : a = b :=
  congrArg Fin.val (digitChar_injOn ⟨a, ha⟩ ⟨b, hb⟩ h)

theorem as_base_date_inj {t1 t2 : SimpleDT}
    (hy1 : t1.year ≤ 9999) (hm1 : t1.month ≤ 99) (hd1 : t1.day ≤ 99)
    (hy2 : t2.year ≤ 9999) (hm2 : t2.month ≤ 99) (hd2 : t2.day ≤ 99)
    (h : as_base_date t1 = as_base_date t2) :
    t1.year = t2.year ∧ t1.month = t2.month ∧ t1.day = t2.day := by
  have h' := congrArg String.data h
  simp only [as_base_date, pad4Chars, pad2Chars, List.cons_append, List.nil_append,
    List.cons.injEq, and_true] at h'
  obtain ⟨e1, e2, e3, e4, e5, e6, e7, e8⟩ := h'
  have g1 := digitChar_inj (Nat.mod_lt _ (by omega)) (Nat.mod_lt _ (by omega)) e1
  have g2 := digitChar_inj (Nat.mod_lt _ (by omega)) (Nat.mod_lt _ (by omega)) e2
  have g3 := digitChar_inj (Nat.mod_lt _ (by omega)) (Nat.mod_lt _ (by omega)) e3
  have g4 := digitChar_inj (Nat.mod_lt _ (by omega)) (Nat.mod_lt _ (by omega)) e4
  have g5 := digitChar_inj (Nat.mod_lt _ (by omega)) (Nat.mod_lt _ (by omega)) e5
  have g6 := digitChar_inj (Nat.mod_lt _ (by omega)) (Nat.mod_lt _ (by omega)) e6
  have g7 := digitChar_inj (Nat.mod_lt _ (by omega)) (Nat.mod_lt _ (by omega)) e7
  have g8 := digitChar_inj (Nat.mod_lt _ (by omega)) (Nat.mod_lt _ (by omega)) e8
  refine ⟨?_, ?_, ?_⟩ <;> omega

theorem daysInMonth_ge_28 (y m : Nat) : 28 ≤ daysInMonth y m := by
  unfold daysInMonth
  split
  · split <;> omega
  · split <;> omega

theorem daysInMonth_le_31 (y m : Nat) : daysInMonth y m ≤ 31 := by
  unfold daysInMonth
  split
  · split <;> omega
  · split <;> omega

theorem prevDay_spec (y m d : Nat) (hy2 : y ≤ 9999) (hm1 : 1 ≤ m) (hm2 : m ≤ 12)
    (hd1 : 1 ≤ d) (hd2 : d ≤ daysInMonth y m) :
    (prevDay y m d).1 ≤ 9999 ∧ (prevDay y m d).2.1 ≤ 99 ∧
    (prevDay y m d).2.2 ≤ 99 ∧ (prevDay y m d).2.2 ≠ d := by
  have h28 := daysInMonth_ge_28 y (m - 1)
  have h31 := daysInMonth_le_31 y (m - 1)
  have h31' := daysInMonth_le_31 y m
  unfold prevDay
  by_cases hdd : 2 ≤ d
  · rw [if_pos hdd]
    dsimp only
    refine ⟨by omega, by omega, by omega, by omega⟩
  · rw [if_neg hdd]
    by_cases hmm2 : 2 ≤ m
    · rw [if_pos hmm2]
      dsimp only
      refine ⟨by omega, by omega, by omega, by omega⟩
    · rw [if_neg hmm2]
      dsimp only
      refine ⟨by omega, by omega, by omega, by omega⟩

/-- C1: the planner derives at most two candidate windows — the primary is the
current time truncated to the top of the hour, the secondary exactly one hour
earlier — and the secondary survives only when its calendar date equals the
primary's: at any valid time with hour ≥ 1 both windows are eligible, at hour
0 only the primary is (the one-hour step would cross midnight), and never are
more than two windows produced.  Concretely, at 00:15 only the 00:00 window is
eligible and at 13:40 the 13:00 and 12:00 windows are. -/
theorem C1_time_window_plan (now : SimpleDT) (hv : ValidDT now) :
    candidate_list now = [hourFloor now, subOneHour (hourFloor now)] ∧
    hourFloor now = ⟨now.year, now.month, now.day, now.hour, 0⟩ ∧
    (eligible_candidates now).length ≤ 2 ∧
    (1 ≤ now.hour →
      eligible_candidates now =
        [⟨now.year, now.month, now.day, now.hour, 0⟩,
         ⟨now.year, now.month, now.day, now.hour - 1, 0⟩]) ∧
    (now.hour = 0 →
      eligible_candidates now = [⟨now.year, now.month, now.day, 0, 0⟩]) ∧
    eligible_candidates ⟨2025, 10, 12, 0, 15⟩ = [⟨2025, 10, 12, 0, 0⟩] ∧
    eligible_candidates ⟨2025, 10, 12, 13, 40⟩ =
      [⟨2025, 10, 12, 13, 0⟩, ⟨2025, 10, 12, 12, 0⟩] := by
  obtain ⟨hy1, hy2, hm1, hm2, hd1, hd2, hh, hmin⟩ := hv
  have hfloor : hourFloor now = ⟨now.year, now.month, now.day, now.hour, 0⟩ := rfl
  refine ⟨rfl, hfloor, ?_, ?_, ?_, by decide, by decide⟩
  · exact le_trans (List.length_filter_le _ _) (by simp [candidate_list])
  · intro h1
    have hsub : subOneHour (hourFloor now) =
        ⟨now.year, now.month, now.day, now.hour - 1, 0⟩ := by
      rw [hfloor]
      unfold subOneHour
      rw [if_pos h1]
    have c1 : (as_base_date (⟨now.year, now.month, now.day, now.hour, 0⟩ : SimpleDT) ==
        as_base_date now) = true := beq_iff_eq.mpr rfl
    have c2 : (as_base_date (⟨now.year, now.month, now.day, now.hour - 1, 0⟩ : SimpleDT) ==
        as_base_date now) = true := beq_iff_eq.mpr rfl
    unfold eligible_candidates candidate_list
    rw [hsub, hfloor]
    simp [List.filter_cons, c1, c2]
  · intro h0
    have hsub : subOneHour (hourFloor now) =
        ⟨(prevDay now.year now.month now.day).1,
         (prevDay now.year now.month now.day).2.1,
         (prevDay now.year now.month now.day).2.2, 23, 0⟩ := by
      rw [hfloor]
      unfold subOneHour
      rw [if_neg (by simp [h0])]
    have hbounds := prevDay_spec now.year now.month now.day hy2 hm1 hm2 hd1 hd2
    have hne : as_base_date (⟨(prevDay now.year now.month now.day).1,
        (prevDay now.year now.month now.day).2.1,
        (prevDay now.year now.month now.day).2.2, 23, 0⟩ : SimpleDT) ≠
        as_base_date now := by
      intro hcontra
      have h31' := daysInMonth_le_31 now.year now.month
      have := as_base_date_inj hbounds.1 hbounds.2.1 hbounds.2.2.1
        hy2 (by omega) (by omega) hcontra
      exact hbounds.2.2.2 this.2.2
    have c1 : (as_base_date (⟨now.year, now.month, now.day, now.hour, 0⟩ : SimpleDT) ==
        as_base_date now) = true := beq_iff_eq.mpr rfl
    have c2 : (as_base_date (⟨(prevDay now.year now.month now.day).1,
        (prevDay now.year now.month now.day).2.1,
        (prevDay now.year now.month now.day).2.2, 23, 0⟩ : SimpleDT) ==
        as_base_date now) = false := by
      rw [beq_eq_false_iff_ne]
      exact hne
    unfold eligible_candidates candidate_list
    rw [hsub, hfloor]
    simp only [List.filter_cons, c1, c2, if_true, Bool.false_eq_true, if_false,
      List.filter_nil]
    rw [h0]

/-- C1 witness: the plan at the concrete time 2025-10-12 13:40 KST. -/
theorem C1_witness :
    eligible_candidates ⟨2025, 10, 12, 13, 40⟩ =
      [⟨2025, 10, 12, 13, 0⟩, ⟨2025, 10, 12, 12, 0⟩] :=
  (C1_time_window_plan ⟨2025, 10, 12, 13, 40⟩ (by decide)).2.2.2.2.2.2

/-! ### Orchestrator step lemmas -/

theorem runWindows_nil (u : String → FetchOutcome) (bd cn : String) (nx ny : Nat)
    (atts : List Attempt) (le : Option String) :
    runWindows u bd cn nx ny [] atts le = .inr (atts, le) := rfl

theorem runWindows_cons_skip (u : String → FetchOutcome) (bd cn : String) (nx ny : Nat)
    (c : SimpleDT) (rest : List SimpleDT) (atts : List Attempt) (le : Option String)
    (h : as_base_date c ≠ bd) :
    runWindows u bd cn nx ny (c :: rest) atts le =
      runWindows u bd cn nx ny rest atts le := by
  rw [runWindows]
  rw [if_pos h]

theorem runWindows_cons_accept (u : String → FetchOutcome) (bd cn : String) (nx ny : Nat)
    (c : SimpleDT) (rest : List SimpleDT) (atts : List Attempt) (le : Option String)
    (resp : ApiJson)
    (h : as_base_date c = bd)
    (hu : u (as_base_time_hour c) = .ok resp)
    (hacc : acceptedResp resp) :
    runWindows u bd cn nx ny (c :: rest) atts le =
      .inl (.success cn nx ny bd (as_base_time_hour c)
        (normalize_observations (extract_items resp))
        (atts ++ [mkAttempt bd (as_base_time_hour c) resp])) := by
  rw [runWindows]
  rw [if_neg (by simp [h])]
  dsimp only
  rw [hu]
  dsimp only
  rw [if_pos hacc]

theorem runWindows_cons_reject (u : String → FetchOutcome) (bd cn : String) (nx ny : Nat)
    (c : SimpleDT) (rest : List SimpleDT) (atts : List Attempt) (le : Option String)
    (resp : ApiJson)
    (h : as_base_date c = bd)
    (hu : u (as_base_time_hour c) = .ok resp)
    (hrej : ¬ acceptedResp resp) :
    runWindows u bd cn nx ny (c :: rest) atts le =
      runWindows u bd cn nx ny rest (atts ++ [mkAttempt bd (as_base_time_hour c) resp])
        (some (emptyDataMsg (respCode resp) (extract_items resp).length)) := by
  rw [runWindows]
  rw [if_neg (by simp [h])]
  dsimp only
  rw [hu]
  dsimp only
  rw [if_neg hrej]

theorem get_now_weather_of_inl (env_key : Option String) (city : String) (now : SimpleDT)
    (upstream : String → FetchOutcome) (nx ny : Nat) (r : WeatherResult)
    (henv : pyStrip (env_key.getD "") ≠ "")
    (hgrid : CITY_TO_GRID (normalize_city city) = some (nx, ny))
    (hrun : runWindows upstream (as_base_date now) (normalize_city city) nx ny
      (candidate_list now) [] Option.none = .inl r) :
    get_now_weather env_key city now upstream = r := by
  unfold get_now_weather
  rw [if_neg henv, hgrid]
  dsimp only
  rw [hrun]

theorem get_now_weather_of_inr (env_key : Option String) (city : String) (now : SimpleDT)
    (upstream : String → FetchOutcome) (nx ny : Nat) (atts : List Attempt)
    (le : Option String)
    (henv : pyStrip (env_key.getD "") ≠ "")
    (hgrid : CITY_TO_GRID (normalize_city city) = some (nx, ny))
    (hrun : runWindows upstream (as_base_date now) (normalize_city city) nx ny
      (candidate_list now) [] Option.none = .inr (atts, le)) :
    get_now_weather env_key city now upstream =
      .exhausted (le.getD "알 수 없는 오류") (normalize_city city) nx ny (as_base_date now)
        (((candidate_list now).filter
          (fun c => as_base_date c == as_base_date now)).map as_base_time_hour)
        atts := by
  unfold get_now_weather
  rw [if_neg henv, hgrid]
  dsimp only
  rw [hrun]

/-! ### C9 — unsupported region -/

/-- C9: when the normalized form of the input city is not a supported region
key (and the service key is present, so execution reaches region resolution),
`get_now_weather` terminates with the unsupported-region failure carrying the
original input, the normalized form and the supported-region keys — and it
does so for every possible upstream behaviour, i.e. without consulting the
network at all. -/
theorem C9_unsupported_region (env_key : Option String) (city : String) (now : SimpleDT)
    (henv : pyStrip (env_key.getD "") ≠ "")
    (hgrid : CITY_TO_GRID (normalize_city city) = Option.none) :
    ∀ upstream : String → FetchOutcome,
      get_now_weather env_key city now upstream =
        .unsupported "지원하지 않는 지역입니다." city (normalize_city city)
          supported_cities := by
  intro upstream
  unfold get_now_weather
  rw [if_neg henv, hgrid]

/-- C9 witness: the unsupported city "파리" with an arbitrary fixture
upstream. -/
theorem C9_witness :
    get_now_weather (some "key") "파리" ⟨2025, 10, 12, 13, 40⟩ upstreamFixtureB =
      .unsupported "지원하지 않는 지역입니다." "파리" "파리" supported_cities :=
  C9_unsupported_region (some "key") "파리" ⟨2025, 10, 12, 13, 40⟩
    (by decide) (by decide) upstreamFixtureB

/-! ### C2 — first usable window wins -/

/-- C2: as soon as an eligible window's response parses with result code "00"
and a non-empty item list — here the primary window — `get_now_weather`
returns a success built solely from that window's items (its effective
`base_time`, its normalized observations, and an attempt trail consisting of
that window's single record), and the result is the same for every upstream
that agrees on that window, i.e. no later window is ever consulted. -/
theorem C2_first_success_wins (env_key : Option String) (city : String) (now : SimpleDT)
    (upstream : String → FetchOutcome) (nx ny : Nat) (resp : ApiJson)
    (henv : pyStrip (env_key.getD "") ≠ "")
    (hgrid : CITY_TO_GRID (normalize_city city) = some (nx, ny))
    (hu : upstream (as_base_time_hour (hourFloor now)) = .ok resp)
    (hacc : acceptedResp resp) :
    get_now_weather env_key city now upstream =
      .success (normalize_city city) nx ny (as_base_date now)
        (as_base_time_hour (hourFloor now))
        (normalize_observations (extract_items resp))
        [mkAttempt (as_base_date now) (as_base_time_hour (hourFloor now)) resp] ∧
    ∀ u2 : String → FetchOutcome,
      u2 (as_base_time_hour (hourFloor now)) = .ok resp →
      get_now_weather env_key city now u2 = get_now_weather env_key city now upstream := by
  have key : ∀ u : String → FetchOutcome,
      u (as_base_time_hour (hourFloor now)) = .ok resp →
      get_now_weather env_key city now u =
        .success (normalize_city city) nx ny (as_base_date now)
          (as_base_time_hour (hourFloor now))
          (normalize_observations (extract_items resp))
          [mkAttempt (as_base_date now) (as_base_time_hour (hourFloor now)) resp] := by
    intro u hu'
    refine get_now_weather_of_inl env_key city now u nx ny _ henv hgrid ?_
    unfold candidate_list
    rw [runWindows_cons_accept u (as_base_date now) (normalize_city city) nx ny
      (hourFloor now) [subOneHour (hourFloor now)] [] Option.none resp rfl hu' hacc]
    rw [List.nil_append]
  exact ⟨key upstream hu, fun u2 h2 => (key u2 h2).trans (key upstream hu).symm⟩

/-- C2 witness: at 13:40 the primary "1300" window of `upstreamFixtureA`
succeeds with one item while the fallback would succeed with two; the result
reflects only the primary window's single item. -/
theorem C2_witness :
    get_now_weather (some "key") "서울" ⟨2025, 10, 12, 13, 40⟩ upstreamFixtureA =
      .success "서울" 60 127 "20251012" "1300"
        (normalize_observations [⟨some "REH", .str "50"⟩])
        [⟨"20251012", "1300", "00", "NORMAL_SERVICE", 1⟩] :=
  (C2_first_success_wins (some "key") "서울" ⟨2025, 10, 12, 13, 40⟩ upstreamFixtureA
    60 127 ⟨⟨some "00", some "NORMAL_SERVICE"⟩, .list [⟨some "REH", .str "50"⟩]⟩
    (by decide) (by decide) (by decide) (by decide)).1

/-! ### C3 — exhaustion with one attempt record per eligible window -/

/-- C3: when every eligible window yields a parsed response that is not
accepted (non-"00" code or empty items), `get_now_weather` returns the
exhausted failure: its attempt trail has exactly one record per eligible
window (two records when both windows were eligible, one otherwise), its
error is the descriptive empty-data message of the last attempt, and it
carries the resolved region, the grid pair, the eligible candidate times and
the full trail. -/
theorem C3_exhausted_failure (env_key : Option String) (city : String) (now : SimpleDT)
    (upstream : String → FetchOutcome) (nx ny : Nat) (r1 r2 : ApiJson)
    (henv : pyStrip (env_key.getD "") ≠ "")
    (hgrid : CITY_TO_GRID (normalize_city city) = some (nx, ny))
    (hu1 : upstream (as_base_time_hour (hourFloor now)) = .ok r1)
    (hr1 : ¬ acceptedResp r1)
    (hu2 : as_base_date (subOneHour (hourFloor now)) = as_base_date now →
      upstream (as_base_time_hour (subOneHour (hourFloor now))) = .ok r2 ∧
      ¬ acceptedResp r2) :
    get_now_weather env_key city now upstream =
      if as_base_date (subOneHour (hourFloor now)) = as_base_date now then
        .exhausted (emptyDataMsg (respCode r2) (extract_items r2).length)
          (normalize_city city) nx ny (as_base_date now)
          [as_base_time_hour (hourFloor now),
           as_base_time_hour (subOneHour (hourFloor now))]
          [mkAttempt (as_base_date now) (as_base_time_hour (hourFloor now)) r1,
           mkAttempt (as_base_date now)
             (as_base_time_hour (subOneHour (hourFloor now))) r2]
      else
        .exhausted (emptyDataMsg (respCode r1) (extract_items r1).length)
          (normalize_city city) nx ny (as_base_date now)
          [as_base_time_hour (hourFloor now)]
          [mkAttempt (as_base_date now) (as_base_time_hour (hourFloor now)) r1] := by
  have c1 : (as_base_date (hourFloor now) == as_base_date now) = true :=
    beq_iff_eq.mpr rfl
  by_cases hdate : as_base_date (subOneHour (hourFloor now)) = as_base_date now
  · rw [if_pos hdate]
    obtain ⟨hu2', hr2⟩ := hu2 hdate
    have hrun : runWindows upstream (as_base_date now) (normalize_city city) nx ny
        (candidate_list now) [] Option.none =
        .inr ([mkAttempt (as_base_date now) (as_base_time_hour (hourFloor now)) r1,
               mkAttempt (as_base_date now)
                 (as_base_time_hour (subOneHour (hourFloor now))) r2],
              some (emptyDataMsg (respCode r2) (extract_items r2).length)) := by
      unfold candidate_list
      rw [runWindows_cons_reject upstream (as_base_date now) (normalize_city city) nx ny
        (hourFloor now) [subOneHour (hourFloor now)] [] Option.none r1 rfl hu1 hr1]
      rw [runWindows_cons_reject upstream (as_base_date now) (normalize_city city) nx ny
        (subOneHour (hourFloor now)) [] _ _ r2 hdate hu2' hr2]
      rw [runWindows_nil]
      simp only [List.nil_append, List.singleton_append]
    have hres := get_now_weather_of_inr env_key city now upstream nx ny _ _
      henv hgrid hrun
    rw [hres]
    have c2 : (as_base_date (subOneHour (hourFloor now)) == as_base_date now) = true :=
      beq_iff_eq.mpr hdate
    unfold candidate_list
    simp only [List.filter_cons, c1, c2, if_true, List.filter_nil, List.map_cons,
      List.map_nil, Option.getD_some]
  · rw [if_neg hdate]
    have hrun : runWindows upstream (as_base_date now) (normalize_city city) nx ny
        (candidate_list now) [] Option.none =
        .inr ([mkAttempt (as_base_date now) (as_base_time_hour (hourFloor now)) r1],
              some (emptyDataMsg (respCode r1) (extract_items r1).length)) := by
      unfold candidate_list
      rw [runWindows_cons_reject upstream (as_base_date now) (normalize_city city) nx ny
        (hourFloor now) [subOneHour (hourFloor now)] [] Option.none r1 rfl hu1 hr1]
      rw [runWindows_cons_skip upstream (as_base_date now) (normalize_city city) nx ny
        (subOneHour (hourFloor now)) [] _ _ hdate]
      rw [runWindows_nil]
      simp only [List.nil_append, List.singleton_append]
    have hres := get_now_weather_of_inr env_key city now upstream nx ny _ _
      henv hgrid hrun
    rw [hres]
    have c2 : (as_base_date (subOneHour (hourFloor now)) == as_base_date now) = false :=
      beq_eq_false_iff_ne.mpr hdate
    unfold candidate_list
    simp only [List.filter_cons, c1, c2, if_true, Bool.false_eq_true, if_false,
      List.filter_nil, List.map_cons, List.map_nil, Option.getD_some]

/-- C3 witness: at 13:40 both windows are eligible and `upstreamFixtureB`
returns empty NO_DATA envelopes for both, so the failure carries exactly two
attempt records and the empty-data error message. -/
theorem C3_witness :
    get_now_weather (some "key") "서울" ⟨2025, 10, 12, 13, 40⟩ upstreamFixtureB =
      .exhausted "정상 응답이지만 데이터가 비어있습니다(resultCode=03, count=0)" "서울" 60 127
        "20251012" ["1300", "1200"]
        [⟨"20251012", "1300", "03", "NO_DATA", 0⟩,
         ⟨"20251012", "1200", "03", "NO_DATA", 0⟩] := by
  have h := C3_exhausted_failure (some "key") "서울" ⟨2025, 10, 12, 13, 40⟩
    upstreamFixtureB 60 127 ⟨⟨some "03", some "NO_DATA"⟩, .absent⟩
    ⟨⟨some "03", some "NO_DATA"⟩, .absent⟩
    (by decide) (by decide) (by decide) (by decide)
    (fun _ => ⟨by decide, by decide⟩)
  exact h.trans (by decide)

/-! ### Dict lemmas for the response normalizer -/

theorem getGroup_emptyGrouped (s : String) : getGroup emptyGrouped s = [] := by
  unfold getGroup emptyGrouped
  split_ifs <;> rfl

theorem getGroup_setGroup_same (g : Grouped) (s : String) (d : List (String × Entry)) :
    getGroup (setGroup g s d) s = d := by
  unfold getGroup setGroup
  split_ifs <;> rfl

theorem self_ne_append_paren (a c : String) : a ≠ a ++ "(" ++ c ++ ")" := by
  intro h
  have h' := congrArg String.length h
  rw [String.length_append, String.length_append, String.length_append] at h'
  have l1 : String.length "(" = 1 := by decide
  have l2 : String.length ")" = 1 := by decide
  omega

/-! ### C4 — display-key collisions -/

/-- C4 (counterexample): with three items of the same category (here REH with
values 50, 60, 70), the first is stored under "습도" and the second under
"습도(REH)", but the third recomputes the same suffixed key and overwrites the
second — the value-60 item is silently dropped, contradicting the claim that
with two *or more* colliding items every item appears in the output. -/
theorem C4_counterexample :
    normalize_observations
        [⟨some "REH", .str "50"⟩, ⟨some "REH", .str "60"⟩, ⟨some "REH", .str "70"⟩] =
      ⟨[], [("습도", ⟨"REH", .int 50, some "%", Option.none, Option.none⟩),
            ("습도(REH)", ⟨"REH", .int 70, some "%", Option.none, Option.none⟩)],
       [], [], []⟩ ∧
    ∀ kv ∈ (normalize_observations
        [⟨some "REH", .str "50"⟩, ⟨some "REH", .str "60"⟩,
         ⟨some "REH", .str "70"⟩]).humid, kv.2.value ≠ .int 60 := by
  decide

/-- C4 (amended): when exactly two items produce the same display label within
the same group, both appear in the output — the later one under a key
suffixed with its raw code in parentheses; with three or more colliding items,
later duplicates recompute the same suffixed key and overwrite it, so items
can be dropped.  This theorem proves the two-item case in general. -/
theorem C4_two_item_collision (it1 it2 : RawItem)
    (hg : (itemEntry it1).1 = (itemEntry it2).1)
    (hn : (itemEntry it1).2.1 = (itemEntry it2).2.1) :
    getGroup (normalize_observations [it1, it2])
        (if groupKeys.contains (itemEntry it1).1 then (itemEntry it1).1 else "기타") =
      [((itemEntry it1).2.1, (itemEntry it1).2.2),
       ((itemEntry it1).2.1 ++ "(" ++ (itemEntry it2).2.2.code ++ ")",
        (itemEntry it2).2.2)] := by
  rcases ht1 : itemEntry it1 with ⟨G1, n1, e1⟩
  rcases ht2 : itemEntry it2 with ⟨G2, n2, e2⟩
  rw [ht1, ht2] at hg hn
  dsimp only at hg hn
  subst hg
  subst hn
  unfold normalize_observations
  rw [List.foldl_cons, List.foldl_cons, List.foldl_nil]
  unfold normStep
  rw [ht1, ht2]
  dsimp only
  have hne := self_ne_append_paren n1 e2.code
  simp [getGroup_emptyGrouped, getGroup_setGroup_same, dictContains, dictInsert, hne]

/-- C4 witness: the two-item collision applied at two concrete REH items. -/
theorem C4_witness :
    getGroup (normalize_observations
        [⟨some "REH", .str "50"⟩, ⟨some "REH", .str "60"⟩]) "습도" =
      [("습도", ⟨"REH", .int 50, some "%", Option.none, Option.none⟩),
       ("습도(REH)", ⟨"REH", .int 60, some "%", Option.none, Option.none⟩)] := by
  have h := C4_two_item_collision ⟨some "REH", .str "50"⟩ ⟨some "REH", .str "60"⟩
    (by decide) (by decide)
  exact h.trans (by decide)

/-! ### C5 — wind-direction mapping -/

/-- C5: the 16-point wind mapping sends 0°, 360° and 348.75° to "북" and 90°
to "동", and is invariant under adding any whole number of turns: for every
rational degree value d and integer k, d and d + 360·k receive the same label
(the degree is wrapped into [0, 360) by the floored modulus before the
22.5°-sector rounding). -/
theorem C5_wind_direction :
    windDeg16 0 = "북" ∧ windDeg16 360 = "북" ∧ windDeg16 348.75 = "북" ∧
    windDeg16 90 = "동" ∧
    ∀ d : ℚ, ∀ k : ℤ, windDeg16 (d + 360 * k) = windDeg16 d := by
  have key : ∀ q : ℚ, ∀ v : ℚ, ∀ i : ℤ, pyMod q 360 = v → ⌊(v + 11.25) / 22.5⌋ = i →
      windDeg16 q = WIND_DIR_16_KO.getD (Int.toNat (Int.emod i 16)) "" := by
    intro q v i h1 h2
    unfold windDeg16
    rw [h1, h2]
  refine ⟨?_, ?_, ?_, ?_, ?_⟩
  · rw [key 0 0 0 (by unfold pyMod; norm_num) (by norm_num)]
    rfl
  · rw [key 360 0 0 (by unfold pyMod; norm_num) (by norm_num)]
    rfl
  · rw [key 348.75 348.75 16 (by unfold pyMod; norm_num) (by norm_num)]
    rfl
  · rw [key 90 90 4 (by unfold pyMod; norm_num) (by norm_num)]
    rfl
  · intro d k
    have h : pyMod (d + 360 * k) 360 = pyMod d 360 := by
      unfold pyMod
      have h1 : (d + 360 * k) / 360 = d / 360 + k := by
        field_simp
        ring
      rw [h1, Int.floor_add_int]
      push_cast
      ring
    unfold windDeg16
    rw [h]

/-! ### C6 — numeric casting round-trips -/

/-- C6: casting "3.0" under the declared integer kind parses it as a real
number and truncates, yielding the integer 3; and for every string that is
(after stripping) non-empty but not a float literal — "abc" concretely, and in
general any parse failure — the cast is non-fatal under either declared kind
and `safe_cast` returns the original string value unchanged. -/
theorem C6_safe_cast :
    safe_cast .int (.str "3.0") = .int 3 ∧
    safe_cast .int (.str "abc") = .str "abc" ∧
    safe_cast .float (.str "abc") = .str "abc" ∧
    ∀ k : CastKind, ∀ s : String,
      pyStrip s ≠ "" → parsePyFloat (pyStrip s) = Option.none →
      safe_cast k (.str s) = .str s := by
  refine ⟨by decide, by decide, by decide, ?_⟩
  intro k s h1 h2
  unfold safe_cast
  dsimp only
  rw [if_neg h1]
  cases k
  · rw [h2]
  · rw [h2]

/-- C6 witness: the general parse-failure clause applied at a concrete
non-numeric string under the float kind. -/
theorem C6_witness : safe_cast .float (.str "1.2.3") = .str "1.2.3" :=
  C6_safe_cast.2.2.2 .float "1.2.3" (by decide) (by decide)

/-! ### C8 — precipitation-type descriptions -/

/-- C8: for every PTY observation whose value casts to an integer v, the
attached description is the `PTY_MAP_ULTRA` entry for v when v is a known
code, and the literal "알 수 없음(v)" otherwise — concretely 0 yields "없음"
and the unrecognized code 9 yields "알 수 없음(9)". -/
theorem C8_pty_description (it : RawItem) (v : Int)
    (hc : codeOf it = "PTY")
    (hv : safe_cast .int it.obsrValue = .int v) :
    (itemEntry it).2.2.desc =
      some ((ptyDescription v).getD ("알 수 없음(" ++ toString v ++ ")")) ∧
    (itemEntry ⟨some "PTY", .str "0"⟩).2.2.desc = some "없음" ∧
    (itemEntry ⟨some "PTY", .str "9"⟩).2.2.desc = some "알 수 없음(9)" := by
  refine ⟨?_, by decide, by decide⟩
  have hm : CATEGORY_META "PTY" = some ⟨"강수형태", "코드", "강수", .int⟩ := by decide
  unfold itemEntry
  rw [hc]
  dsimp only
  rw [hm]
  dsimp only
  rw [hv]
  simp

/-- C8 witness: the general clause applied at a PTY item with the known code
3 ("눈"). -/
theorem C8_witness : (itemEntry ⟨some "PTY", .str "3"⟩).2.2.desc = some "눈" := by
  have h := (C8_pty_description ⟨some "PTY", .str "3"⟩ 3 (by decide) (by decide)).1
  exact h.trans (by decide)

/-! ### C10 — missing values become null -/

/-- C10: under every declared cast kind, `safe_cast` maps a `None` raw value
and any empty or whitespace-only string to `None` rather than keeping the
original string; consequently a known-category item whose `obsrValue` is
missing carries a null value field in its normalized entry. -/
theorem C10_missing_value_null (k : CastKind) (s : String) (it : RawItem) (meta : CatMeta)
    (hs : pyStrip s = "")
    (hmeta : CATEGORY_META (codeOf it) = some meta)
    (hraw : it.obsrValue = Raw.none) :
    safe_cast k Raw.none = Value.none ∧
    safe_cast k (.str s) = Value.none ∧
    (itemEntry it).2.2.value = Value.none := by
  refine ⟨rfl, ?_, ?_⟩
  · unfold safe_cast
    dsimp only
    rw [hs]
    rfl
  · unfold itemEntry
    rw [hraw]
    dsimp only
    rw [hmeta]
    dsimp only
    rfl

/-- C10 witness: the integer kind on a whitespace-only string, and a T1H item
with a missing observation value. -/
theorem C10_witness :
    safe_cast CastKind.int (Raw.str "  ") = Value.none ∧
    (itemEntry ⟨some "T1H", Raw.none⟩).2.2.value = Value.none := by
  have h := C10_missing_value_null CastKind.int "  " ⟨some "T1H", Raw.none⟩
    ⟨"기온", "℃", "기온", CastKind.float⟩ (by decide) (by decide) rfl
  exact ⟨h.2.1, h.2.2⟩

end KMAWeather
